import Mathlib

/-!
Shallow embedding of the `aiseo` article-generation pipeline
(`app/domain/agents.py`, `app/domain/pipeline.py`,
`app/services/seo_validator.py`, `app/services/link_planner.py`,
`app/services/serp_client.py`, `app/models/schemas.py`, `app/models/orm.py`).

External providers (search API, LLM) are modelled as oracles: total
functions from the prompt/query data to the parsed response.  Machine
integers are `Nat`; Python `int(t * 0.8)` / `int(t * 1.2)` are embedded as
`t * 4 / 5` / `t * 6 / 5` (floor division), which agree with the CPython
float computation on the whole realistic range of word-count targets.
Python in-place mutation is embedded as explicit state passing, and
`raise` as `Except.error`.
-/

namespace AiSeo

/-! ## String helpers mirroring Python primitives -/

/-- Python `str` whitespace for `str.split()` and regex `\s` (ASCII part). -/
def pyWhitespace (c : Char) : Bool :=
  c = ' ' || c = '\t' || c = '\n' || c = '\r' || c = '\x0b' || c = '\x0c'

/-- Accumulator-based word splitter over a character list. -/
def wordsAux : List Char → List Char → List String
  | [], acc => if acc.isEmpty then [] else [String.mk acc.reverse]
  | c :: cs, acc =>
    if pyWhitespace c then
      if acc.isEmpty then wordsAux cs []
      else String.mk acc.reverse :: wordsAux cs []
    else wordsAux cs (c :: acc)

/-- Python `s.split()`: split on whitespace runs, dropping empty pieces. -/
def pySplit (s : String) : List String :=
  wordsAux s.data []

/-- Embeds `len(s.split())`, the word-count measure used throughout the code. -/
def countWords (s : String) : Nat :=
  (pySplit s).length

/-- Python `needle in hay` (substring containment). -/
def strContains (hay needle : String) : Bool :=
  hay.data.tails.any (fun t => needle.data.isPrefixOf t)

/-- Python `set(s.split())`, as a duplicate-free list of words. -/
def wordSet (s : String) : List String :=
  (pySplit s).eraseDups

/-- Python `s.lower()` (ASCII range). -/
def pyLower (s : String) : String :=
  String.mk (s.data.map Char.toLower)

/-- Split a character list at newline characters, keeping empty lines:
the line structure seen by a `re.MULTILINE` scan. -/
def linesAux : List Char → List Char → List (List Char)
  | [], acc => [acc.reverse]
  | c :: cs, acc =>
    if c = '\n' then acc.reverse :: linesAux cs []
    else linesAux cs (c :: acc)

/-- Python `sep.join(parts)`. -/
def joinWith (sep : String) : List String → String
  | [] => ""
  | x :: xs => xs.foldl (fun acc y => acc ++ sep ++ y) x

/-! ## Data model (`app/models/schemas.py`) -/

inductive Language where
  | en
deriving DecidableEq

inductive JobStatus where
  | pending
  | running
  | completed
  | failed
deriving DecidableEq

structure SERPResult where
  rank : Nat
  url : String
  title : String
  snippet : String
deriving DecidableEq

structure SERPAnalysis where
  primary_keyword : String
  secondary_keywords : List String
  topics : List String
  faqs : List String
deriving DecidableEq

structure OutlineSection where
  heading_level : Nat
  heading : String
  slug : String
  summary : String
deriving DecidableEq

structure Outline where
  title : String
  sections : List OutlineSection
deriving DecidableEq

structure InternalLinkSuggestion where
  anchor_text : String
  target_slug : String
deriving DecidableEq

structure ExternalReference where
  title : String
  url : String
  suggested_section_slug : String
  context_reason : String
deriving DecidableEq

structure SEOInfo where
  title_tag : String
  meta_description : String
  primary_keyword : String
  secondary_keywords : List String
  word_count_target : Nat
  estimated_word_count : Option Nat
deriving DecidableEq

structure Article where
  h1 : String
  body_markdown : String
  seo : SEOInfo
  internal_links : List InternalLinkSuggestion
  external_references : List ExternalReference
  structured_data : List (String × String)
deriving DecidableEq

structure ArticleJobCreate where
  topic : String
  target_word_count : Nat
  language : Language
deriving DecidableEq

/-- From `app/domain/context.py`: the mutable shared context of one run. -/
structure ArticleContext where
  job_id : String
  input : ArticleJobCreate
  serp_results : List SERPResult
  serp_analysis : Option SERPAnalysis
  outline : Option Outline
  article : Option Article
deriving DecidableEq

/-! ## SEO validator (`app/services/seo_validator.py`) -/

namespace SEOValidator

/-- One line of regex of `_extract_headings`, namely `^#{level}\s+(.+)$` (multiline):
exactly `level` leading hash marks, at least one whitespace character, and a
non-empty remainder captured (with regex backtracking, a line whose tail is
all whitespace of length ≥ 2 still captures its last whitespace char). -/
def matchHeadingLine (level : Nat) (line : List Char) : Option String :=
  if line.take level = List.replicate level '#' then
    let rest := line.drop level
    let ws := rest.takeWhile pyWhitespace
    let tl := rest.dropWhile pyWhitespace
    if ws.isEmpty then none
    else if !tl.isEmpty then some (String.mk tl)
    else if ws.length ≥ 2 then some (String.mk [ws.getLastD ' '])
    else none
  else none

/-- Embeds `_extract_headings(markdown, level)`. -/
def extractHeadings (markdown : String) (level : Nat) : List String :=
  (linesAux markdown.data []).filterMap (matchHeadingLine level)

/-- Embeds `_check_keyword_match(keyword, headings)`: exact substring match, or a
soft match where at least 50% of the keyword words occur in the heading. -/
def checkKeywordMatch (keyword : String) (headings : List String) : Bool :=
  let keywordWords := wordSet keyword
  if keywordWords.isEmpty then false
  else headings.any (fun heading =>
    let headingLower := pyLower heading
    strContains headingLower keyword ||
      (let headingWords := wordSet headingLower
       let matchingWords := keywordWords.filter (fun w => headingWords.contains w)
       2 * matchingWords.length ≥ keywordWords.length))

/-- Embeds `int(target * 0.8)` of the validator (and draft agent). -/
def minWords (target : Nat) : Nat := target * 4 / 5

/-- Embeds `int(target * 1.2)` of the validator (and draft agent). -/
def maxWords (target : Nat) : Nat := target * 6 / 5

/-- The word-count band check of `SEOValidator.validate` (lines 31-38). -/
def wordCountBandErrors (target word_count : Nat) : List String :=
  if word_count < minWords target then
    ["Word count " ++ toString word_count ++ " is below minimum " ++
      toString (minWords target) ++ " (80% of target " ++ toString target ++ ")"]
  else if word_count > maxWords target then
    ["Word count " ++ toString word_count ++ " exceeds maximum " ++
      toString (maxWords target) ++ " (120% of target " ++ toString target ++ ")"]
  else []

/-- The internal-link threshold check of `SEOValidator.validate` (lines 50-51). -/
def internalLinkCountErrors (links : List InternalLinkSuggestion) : List String :=
  if links.length < 3 then
    ["Expected at least 3 internal links, found " ++ toString links.length]
  else []

/-- Embeds `SEOValidator.validate`.  The Python method mutates
`article.seo.estimated_word_count` in place and returns the error list; here
the mutated article is returned alongside the errors. -/
def validate (article : Article) : Article × List String :=
  let word_count := countWords article.body_markdown
  let article := { article with
    seo := { article.seo with estimated_word_count := some word_count } }
  let primary_keyword_lower := pyLower article.seo.primary_keyword
  let e1 :=
    if !strContains (pyLower article.h1) primary_keyword_lower then
      ["Primary keyword \x27" ++ article.seo.primary_keyword ++ "\x27 not found in H1"]
    else []
  let first_150_words := joinWith " " ((pySplit article.body_markdown).take 150)
  let e2 :=
    if !strContains (pyLower first_150_words) primary_keyword_lower then
      ["Primary keyword \x27" ++ article.seo.primary_keyword ++
        "\x27 not found in first 150 words"]
    else []
  let h2_headings := extractHeadings article.body_markdown 2
  let e3 :=
    if !checkKeywordMatch primary_keyword_lower h2_headings && h2_headings.length > 0 then
      ["Primary keyword \x27" ++ article.seo.primary_keyword ++
        "\x27 not found in any H2 heading (or close match)"]
    else []
  let e4 := wordCountBandErrors article.seo.word_count_target word_count
  let h1_count := (extractHeadings article.body_markdown 1).length
  let e5 :=
    if h1_count ≠ 1 then
      ["Expected exactly 1 H1 heading, found " ++ toString h1_count]
    else []
  let e6 :=
    if h2_headings.length < 3 then
      ["Expected at least 3 H2 headings, found " ++ toString h2_headings.length]
    else []
  let e7 := internalLinkCountErrors article.internal_links
  let e8 :=
    if article.external_references.length < 2 then
      ["Expected at least 2 external references, found " ++
        toString article.external_references.length]
    else []
  (article, e1 ++ e2 ++ e3 ++ e4 ++ e5 ++ e6 ++ e7 ++ e8)

end SEOValidator

/-! ## Link planner (`app/services/link_planner.py`) -/

namespace LinkPlanner

structure InternalPage where
  slug : String
  topic : String
deriving DecidableEq

/-- The fixed catalog `LinkPlanner.INTERNAL_PAGES`. -/
def INTERNAL_PAGES : List InternalPage :=
  [⟨"seo-keyword-research-tools", "SEO keyword research tools"⟩,
   ⟨"content-optimization-checklist", "content optimization checklist"⟩,
   ⟨"remote-team-collaboration", "remote team collaboration tips"⟩]

/-- The match condition of `plan_internal_links` for one catalog page:
some word of the page topic occurs (as a substring, case-insensitively) in
some analysis topic, or in the combined article H1 + body text. -/
def pageMatches (article : Article) (serp_analysis : SERPAnalysis)
    (page : InternalPage) : Bool :=
  let article_text_lower := pyLower (article.h1 ++ " " ++ article.body_markdown)
  let page_keywords := wordSet (pyLower page.topic)
  let matches_serp := serp_analysis.topics.any (fun topic =>
    page_keywords.any (fun keyword => strContains (pyLower topic) keyword))
  let matches_article := page_keywords.any (fun keyword =>
    strContains article_text_lower keyword)
  matches_serp || matches_article

def mkSuggestion (page : InternalPage) : InternalLinkSuggestion :=
  ⟨page.topic, page.slug⟩

/-- One pass of the backfill `for` loop: walk the catalog, appending pages
whose slug is not yet present, stopping once 3 suggestions exist. -/
def backfillPass (suggestions : List InternalLinkSuggestion) :
    List InternalLinkSuggestion :=
  INTERNAL_PAGES.foldl (fun acc page =>
    if acc.length ≥ 3 then acc
    else if acc.any (fun s => s.target_slug = page.slug) then acc
    else acc ++ [mkSuggestion page]) suggestions

/-- The `while len(suggestions) < 3 and len(suggestions) < len(INTERNAL_PAGES)`
loop, with fuel; each pass over the 3-page catalog reaches 3 suggestions, so
fuel 4 is more than the loop ever uses. -/
def backfillLoop : Nat → List InternalLinkSuggestion → List InternalLinkSuggestion
  | 0, suggestions => suggestions
  | fuel + 1, suggestions =>
    if suggestions.length < 3 && suggestions.length < INTERNAL_PAGES.length then
      backfillLoop fuel (backfillPass suggestions)
    else suggestions

/-- Embeds `LinkPlanner.plan_internal_links`. -/
def plan_internal_links (article : Article) (serp_analysis : SERPAnalysis) :
    List InternalLinkSuggestion :=
  let suggestions :=
    (INTERNAL_PAGES.filter (pageMatches article serp_analysis)).map mkSuggestion
  (backfillLoop 4 suggestions).take 5

def authoritative_domains : List String := [".com", ".org", ".edu"]

/-- The best-overlap section scan of `plan_external_references`: the section
whose heading+summary word set has the largest overlap with the result-title
word set, requiring strict improvement over a starting score of 0; falling
back to the first section when no overlap was found. -/
def bestSectionFor (outline : Outline) (result : SERPResult) :
    Option OutlineSection :=
  let result_keywords := wordSet (pyLower result.title)
  let best := outline.sections.foldl
    (fun (acc : Nat × Option OutlineSection) s =>
      let section_keywords := wordSet (pyLower s.heading)
      let summary_keywords := wordSet (pyLower s.summary)
      let all_section_keywords := (section_keywords ++ summary_keywords).eraseDups
      let overlap :=
        (result_keywords.filter (fun w => all_section_keywords.contains w)).length
      if overlap > acc.1 then (overlap, some s) else acc)
    (0, none)
  match best.2 with
  | some s => some s
  | none => outline.sections.head?

/-- Builds one external reference for a selected result. -/
def refFor (outline : Outline) (result : SERPResult) : ExternalReference :=
  match bestSectionFor outline result with
  | some s =>
    ⟨result.title, result.url, s.slug, "Use this when discussing " ++ pyLower s.heading⟩
  | none =>
    ⟨result.title, result.url, "introduction", "Useful reference for the topic"⟩

/-- Embeds `plan_external_references` up to (but not including) the final
`references[:4] if len(references) >= 2 else references` cap. -/
def computeReferences (serp_results : List SERPResult) (outline : Outline) :
    List ExternalReference :=
  if serp_results.isEmpty then []
  else
    let authoritative_results := serp_results.filter (fun r =>
      authoritative_domains.any (fun d => strContains r.url d))
    let selected_results :=
      if !authoritative_results.isEmpty then authoritative_results.take 4
      else serp_results.take 4
    let references := selected_results.map (refFor outline)
    if references.length < 2 && serp_results.length ≥ 2 then
      let used_urls := references.map (fun ref => ref.url)
      let remaining :=
        (serp_results.filter (fun r => !used_urls.contains r.url)).take 2
      references ++ (remaining.take (2 - references.length)).map (fun result =>
        let slug := match outline.sections.head? with
          | some s => s.slug
          | none => "introduction"
        ⟨result.title, result.url, slug, "Useful reference for the topic"⟩)
    else references

/-- Embeds `LinkPlanner.plan_external_references`. -/
def plan_external_references (serp_results : List SERPResult) (outline : Outline) :
    List ExternalReference :=
  let references := computeReferences serp_results outline
  if references.length ≥ 2 then references.take 4 else references

end LinkPlanner

/-! ## Search client (`app/services/serp_client.py`) and provider oracles

The external search and generation providers are modelled as oracles: the
raw `organic_results` the search API returns, and total functions from the
prompt text to the parsed generation response.  Provider/transport failures
are outside the embedding. -/

/-- One entry of the API field `organic_results` (the fields the client reads). -/
structure OrganicResult where
  link : String
  title : String
  snippet : String
deriving DecidableEq

/-- The parsed object of the draft stage SEO-metadata generation call. -/
structure SeoMetaResult where
  title_tag : String
  meta_description : String
deriving DecidableEq

structure Providers where
  organic_results : List OrganicResult
  analysis_response : String → SERPAnalysis
  outline_response : String → Outline
  text_response : String → String
  seo_meta_response : String → SeoMetaResult

/-- Embeds `request_num = max(limit, 15)`: the `num` parameter sent to the API. -/
def serpRequestNum (limit : Nat) : Nat := max limit 15

/-- Embeds `enumerate(organic_results[:limit], start=1)` turned into ranked results. -/
def rankFrom : Nat → List OrganicResult → List SERPResult
  | _, [] => []
  | k, r :: rs => ⟨k, r.link, r.title, r.snippet⟩ :: rankFrom (k + 1) rs

namespace SerpClient

/-- Embeds `SerpClient.search(query, limit)`: asks the API for `max(limit, 15)`
results and keeps the first `limit` of what came back, ranked from 1. -/
def search (organic_results : List OrganicResult) (limit : Nat) : List SERPResult :=
  let request_num := serpRequestNum limit
  let _ := request_num
  rankFrom 1 (organic_results.take limit)

end SerpClient

/-! ## Pipeline stages (`app/domain/agents.py`)

Each `run` returns the updated context (or the raised error message, as
`Except.error`) together with the number of generation/search provider
calls the invocation performed. -/

/-- The summarization prompt of `SERPAnalysisAgent.run`. -/
def analysisPrompt (ctx : ArticleContext) : String :=
  let serp_text := joinWith "\n\n" (ctx.serp_results.map (fun r =>
    "Rank " ++ toString r.rank ++ ": " ++ r.title ++ "\n" ++ r.snippet))
  "Analyze the following search results for the topic \"" ++ ctx.input.topic ++
    "\":\n\n" ++ serp_text ++
    "\n\nExtract and return JSON with:\n" ++
    "- primary_keyword: The main keyword (string)\n" ++
    "- secondary_keywords: 10-20 related keywords (array of strings)\n" ++
    "- topics: 8-12 key subtopics to cover (array of strings)\n" ++
    "- faqs: 5-8 frequently asked questions (array of strings)\n\n" ++
    "Return only valid JSON matching this structure:\n" ++
    "\x7b\n  \"primary_keyword\": \"...\",\n  \"secondary_keywords\": [\"...\", \"...\"],\n" ++
    "  \"topics\": [\"...\", \"...\"],\n  \"faqs\": [\"...\", \"...\"]\n\x7d"

namespace SERPAgent

/-- Embeds `SERPAgent.run`: when no search results are present, query the client
with `limit=15` and trim to 10 results. -/
def run (p : Providers) (ctx : ArticleContext) : ArticleContext × Nat :=
  if ctx.serp_results.isEmpty then
    let results := SerpClient.search p.organic_results 15
    ({ ctx with serp_results := results.take 10 }, 1)
  else (ctx, 0)

end SERPAgent

namespace SERPAnalysisAgent

/-- Embeds `SERPAnalysisAgent.run`: when no analysis is present, build the
summarization prompt from the (possibly empty) ranked results and request a
structured analysis object.  There is no precondition check on
`ctx.serp_results`. -/
def run (p : Providers) (ctx : ArticleContext) : ArticleContext × Nat :=
  match ctx.serp_analysis with
  | some _ => (ctx, 0)
  | none =>
    ({ ctx with serp_analysis := some (p.analysis_response (analysisPrompt ctx)) }, 1)

end SERPAnalysisAgent

namespace OutlineAgent

/-- The outline-generation prompt of `OutlineAgent.run`. -/
def outlinePrompt (ctx : ArticleContext) (an : SERPAnalysis) : String :=
  "Create a detailed SEO-optimized article outline for the topic: \"" ++
    ctx.input.topic ++ "\"\n\n" ++
    "Primary keyword: " ++ an.primary_keyword ++ "\n" ++
    "Secondary keywords: " ++ joinWith ", " (an.secondary_keywords.take 10) ++ "\n" ++
    "Key topics to cover: " ++ joinWith ", " an.topics ++ "\n" ++
    "Target word count: " ++ toString ctx.input.target_word_count ++ "\n\n" ++
    "Requirements:\n" ++
    "- Exactly one H1 (provided as the title field)\n" ++
    "- Multiple H2 sections (at least 3) with heading_level=2\n" ++
    "- Optional H3 subsections with heading_level=3\n" ++
    "- Each section should have:\n" ++
    "  - heading_level: 2 or 3 (title is the H1)\n" ++
    "  - heading: The heading text\n" ++
    "  - slug: URL-friendly slug (lowercase, hyphens)\n" ++
    "  - summary: Brief explanation of what this section covers\n\n" ++
    "Return only valid JSON matching this structure:\n" ++
    "\x7b\n  \"title\": \"H1 title here\",\n  \"sections\": [\n    \x7b\n" ++
    "      \"heading_level\": 2,\n      \"heading\": \"Section heading\",\n" ++
    "      \"slug\": \"section-slug\",\n      \"summary\": \"What this section covers\"\n" ++
    "    \x7d\n  ]\n\x7d"

/-- Embeds `OutlineAgent.run`: when no outline is present, require an analysis,
request an outline and validate the content contract on receipt: no
level-1 sections, and at least 3 level-2 sections. -/
def run (p : Providers) (ctx : ArticleContext) : Except String ArticleContext × Nat :=
  match ctx.outline with
  | some _ => (Except.ok ctx, 0)
  | none =>
    match ctx.serp_analysis with
    | none => (Except.error "SERP analysis required before generating outline", 0)
    | some an =>
      let outline := p.outline_response (outlinePrompt ctx an)
      let h1_in_sections :=
        (outline.sections.filter (fun s => s.heading_level = 1)).length
      let h2_count :=
        (outline.sections.filter (fun s => s.heading_level = 2)).length
      if h1_in_sections > 0 then
        (Except.error ("Outline sections should not have heading_level=1 (title is the H1), found " ++
          toString h1_in_sections ++ " H1 sections"), 1)
      else if h2_count < 3 then
        (Except.error ("Outline must have at least 3 H2 sections, found " ++
          toString h2_count), 1)
      else (Except.ok { ctx with outline := some outline }, 1)

end OutlineAgent

namespace DraftAgent

/-- The markdown rendering of the outline embedded in the draft prompt. -/
def outlineText (outline : Outline) : String :=
  outline.title ++ "\n\n" ++
    joinWith "" (outline.sections.map (fun s =>
      String.mk (List.replicate s.heading_level '#') ++ " " ++ s.heading ++ "\n" ++
        s.summary ++ "\n\n"))

/-- The article-body generation prompt of `DraftAgent.run`. -/
def draftPrompt (ctx : ArticleContext) (an : SERPAnalysis) (outline : Outline) : String :=
  let target := ctx.input.target_word_count
  let min_words := SEOValidator.minWords target
  let max_words := SEOValidator.maxWords target
  let num_sections := outline.sections.length
  let words_per_section := max 200 (target / max num_sections 1)
  "Write a complete, SEO-optimized article in markdown format.\n\n" ++
    "Topic: " ++ ctx.input.topic ++ "\n" ++
    "Primary keyword: " ++ an.primary_keyword ++ "\n" ++
    "Secondary keywords: " ++ joinWith ", " an.secondary_keywords ++ "\n" ++
    "Target word count: " ++ toString target ++ " words (CRITICAL: You must write between " ++
    toString min_words ++ " and " ++ toString max_words ++ " words)\n\n" ++
    "Use this exact outline structure:\n" ++ outlineText outline ++ "\n\n" ++
    "Requirements:\n" ++
    "1. Use the exact headings from the outline above (same text, same heading levels)\n" ++
    "2. Include the primary keyword in:\n" ++
    "   - The H1 (title)\n" ++
    "   - The introduction (first 100-150 words)\n" ++
    "   - At least one H2 heading\n" ++
    "3. Use secondary keywords naturally throughout (no keyword stuffing)\n" ++
    "4. WORD COUNT REQUIREMENT: Write between " ++ toString min_words ++ " and " ++
    toString max_words ++ " words total (target: " ++ toString target ++
    " words). This is mandatory. Aim for approximately " ++ toString words_per_section ++
    " words per section. DO NOT exceed " ++ toString max_words ++ " words.\n" ++
    "5. Write in a human, conversational tone\n" ++
    "6. Make it engaging and valuable for readers with detailed explanations, examples, and insights\n" ++
    "7. Use proper markdown formatting\n" ++
    "8. Expand on each section with substantial content - don\x27t just write brief summaries\n\n" ++
    "Generate the full article body in markdown. Start with the H1 heading. Remember: the article must be between " ++
    toString min_words ++ " and " ++ toString max_words ++ " words long."

/-- The SEO-metadata generation prompt of `DraftAgent.run`. -/
def seoPrompt (ctx : ArticleContext) (an : SERPAnalysis) (outline : Outline) : String :=
  "Generate SEO metadata for this article:\n\n" ++
    "Topic: " ++ ctx.input.topic ++ "\n" ++
    "Primary keyword: " ++ an.primary_keyword ++ "\n" ++
    "Article title: " ++ outline.title ++ "\n\n" ++
    "Return JSON with:\n" ++
    "- title_tag: SEO title (50-60 characters, includes primary keyword)\n" ++
    "- meta_description: Meta description (150-160 characters, includes primary keyword once)\n\n" ++
    "Return only valid JSON:\n\x7b\n  \"title_tag\": \"...\",\n  \"meta_description\": \"...\"\n\x7d"

/-- Embeds `DraftAgent.run`: when no article is present, require outline and
analysis, generate the body and SEO metadata, and assemble the article with
empty link lists. -/
def run (p : Providers) (ctx : ArticleContext) : Except String ArticleContext × Nat :=
  match ctx.article with
  | some _ => (Except.ok ctx, 0)
  | none =>
    match ctx.outline, ctx.serp_analysis with
    | none, _ => (Except.error "Outline and SERP analysis required before generating draft", 0)
    | some _, none => (Except.error "Outline and SERP analysis required before generating draft", 0)
    | some outline, some an =>
      let body_markdown := p.text_response (draftPrompt ctx an outline)
      let seo_result := p.seo_meta_response (seoPrompt ctx an outline)
      let structured_data :=
        [("@context", "https://schema.org"),
         ("@type", "BlogPosting"),
         ("headline", outline.title),
         ("description", seo_result.meta_description),
         ("keywords", joinWith ", "
           (an.primary_keyword :: an.secondary_keywords.take 5))]
      let word_count := countWords body_markdown
      let seo_info : SEOInfo :=
        { title_tag := seo_result.title_tag
          meta_description := seo_result.meta_description
          primary_keyword := an.primary_keyword
          secondary_keywords := an.secondary_keywords
          word_count_target := ctx.input.target_word_count
          estimated_word_count := some word_count }
      let article : Article :=
        { h1 := outline.title
          body_markdown := body_markdown
          seo := seo_info
          internal_links := []
          external_references := []
          structured_data := structured_data }
      (Except.ok { ctx with article := some article }, 2)

end DraftAgent

namespace ValidationAgent

/-- Embeds `ValidationAgent.run`: requires an article and an analysis, then always
re-plans internal links, re-plans external references (when outline and
search results are present, else clears them), and validates; any validator
errors raise.  The article mutations happen before validation. -/
def run (ctx : ArticleContext) : Except String ArticleContext × Nat :=
  match ctx.article with
  | none => (Except.error "Article required for validation", 0)
  | some article =>
    match ctx.serp_analysis with
    | none => (Except.error "SERP analysis required for link planning", 0)
    | some an =>
      let article := { article with
        internal_links := LinkPlanner.plan_internal_links article an }
      let article :=
        match ctx.outline with
        | some outline =>
          if !ctx.serp_results.isEmpty then
            { article with external_references :=
                LinkPlanner.plan_external_references ctx.serp_results outline }
          else { article with external_references := [] }
        | none => { article with external_references := [] }
      let validated := SEOValidator.validate article
      if !validated.2.isEmpty then
        (Except.error ("SEO validation failed:\n" ++
          joinWith "\n" (validated.2.map (fun e => "- " ++ e))), 0)
      else (Except.ok { ctx with article := some validated.1 }, 0)

end ValidationAgent

/-! ## Pipeline runner and job store (`app/domain/pipeline.py`, `app/models/orm.py`) -/

/-- One persisted job row.  `updated_at` is a write counter standing for the
refresh timestamp: every store update bumps it. -/
structure Job where
  id : String
  topic : String
  target_word_count : Nat
  language : Language
  status : JobStatus
  serp_results_snapshot : Option (List SERPResult)
  serp_analysis_snapshot : Option SERPAnalysis
  outline_snapshot : Option Outline
  article_snapshot : Option Article
  error_message : Option String
  updated_at : Nat
deriving DecidableEq

/-- Embeds `x if x is not None else old`: the per-field merge of
`update_job_status_and_data`. -/
def keepOr {α : Type} (new old : Option α) : Option α :=
  match new with
  | some v => some v
  | none => old

/-- Embeds `update_job_status_and_data`: set the status, overwrite exactly the
snapshots and error message supplied, and refresh the update timestamp. -/
def updateJob (job : Job) (status : JobStatus)
    (serp_results : Option (List SERPResult)) (serp_analysis : Option SERPAnalysis)
    (outline : Option Outline) (article : Option Article)
    (error_message : Option String) : Job :=
  { job with
    status := status
    serp_results_snapshot := keepOr serp_results job.serp_results_snapshot
    serp_analysis_snapshot := keepOr serp_analysis job.serp_analysis_snapshot
    outline_snapshot := keepOr outline job.outline_snapshot
    article_snapshot := keepOr article job.article_snapshot
    error_message := keepOr error_message job.error_message
    updated_at := job.updated_at + 1 }

/-- Rebuilding the shared context from the persisted snapshots of a job
(`process_job` lines 41-61). -/
def rehydrate (job : Job) : ArticleContext :=
  { job_id := job.id
    input := { topic := job.topic
               target_word_count := job.target_word_count
               language := job.language }
    serp_results := match job.serp_results_snapshot with
      | some l => l
      | none => []
    serp_analysis := job.serp_analysis_snapshot
    outline := job.outline_snapshot
    article := job.article_snapshot }

/-- Stage 5 of the runner loop plus finalization: run the validation agent,
persist the article while `running`, finalize to `completed`, or record the
raised message and transition to `failed`. -/
def finishFromValidation (job : Job) (ctx : ArticleContext) : Job × Nat :=
  match (ValidationAgent.run ctx).1 with
  | Except.error e =>
    (updateJob job JobStatus.failed none none none none (some e), 5)
  | Except.ok ctx =>
    let job :=
      match ctx.article with
      | some a => updateJob job JobStatus.running none none none (some a) none
      | none => job
    (updateJob job JobStatus.completed none none none ctx.article none, 5)

/-- Stage 4 of the runner loop: run the draft agent and persist the article,
then continue with validation; a raise records the message and fails. -/
def finishFromDraft (p : Providers) (job : Job) (ctx : ArticleContext) : Job × Nat :=
  match (DraftAgent.run p ctx).1 with
  | Except.error e =>
    (updateJob job JobStatus.failed none none none none (some e), 4)
  | Except.ok ctx =>
    let job :=
      match ctx.article with
      | some a => updateJob job JobStatus.running none none none (some a) none
      | none => job
    finishFromValidation job ctx

/-- Stage 3 of the runner loop: run the outline agent and persist the
outline, then continue with the draft; a raise records the message and
fails. -/
def finishFromOutline (p : Providers) (job : Job) (ctx : ArticleContext) : Job × Nat :=
  match (OutlineAgent.run p ctx).1 with
  | Except.error e =>
    (updateJob job JobStatus.failed none none none none (some e), 3)
  | Except.ok ctx =>
    let job :=
      match ctx.outline with
      | some o => updateJob job JobStatus.running none none (some o) none none
      | none => job
    finishFromDraft p job ctx

/-- The shared context right after stages 1-2 of a fresh (non-terminal)
invocation: rehydrate, run the search agent, run the analysis agent. -/
def ctxAfterAnalysis (p : Providers) (job : Job) : ArticleContext :=
  (SERPAnalysisAgent.run p (SERPAgent.run p (rehydrate job)).1).1

/-- The job record right after the stage-1 and stage-2 persists. -/
def jobAfterAnalysis (p : Providers) (job : Job) : Job :=
  let job := updateJob job JobStatus.running none none none none none
  let ctx := (SERPAgent.run p (rehydrate job)).1
  let job :=
    if !ctx.serp_results.isEmpty then
      updateJob job JobStatus.running (some ctx.serp_results) none none none none
    else job
  let ctx := (SERPAnalysisAgent.run p ctx).1
  match ctx.serp_analysis with
  | some an => updateJob job JobStatus.running none (some an) none none none
  | none => job

/-- Embeds `process_job`: terminal statuses return immediately; otherwise mark the
job running, rehydrate the context, run the five stages in order persisting
each produced slot, and finalize to `completed`, or to `failed` with the
raised message.  The second component counts the stages executed. -/
def process_job (p : Providers) (job : Job) : Job × Nat :=
  if job.status = JobStatus.completed then (job, 0)
  else if job.status = JobStatus.failed then (job, 0)
  else
    let job := updateJob job JobStatus.running none none none none none
    let ctx := rehydrate job
    let ctx := (SERPAgent.run p ctx).1
    let job :=
      if !ctx.serp_results.isEmpty then
        updateJob job JobStatus.running (some ctx.serp_results) none none none none
      else job
    let ctx := (SERPAnalysisAgent.run p ctx).1
    let job :=
      match ctx.serp_analysis with
      | some an => updateJob job JobStatus.running none (some an) none none none
      | none => job
    finishFromOutline p job ctx

/-! ## The claim-side matching relation of internal-link planning

`wholeWordMatches` renders the *claimed* matching rule (whole-word
containment of the page-topic words) for comparison with the implemented
`pageMatches` (substring containment); it is not part of the embedding of
the source. -/

def wholeWordMatches (article : Article) (serp_analysis : SERPAnalysis)
    (page : LinkPlanner.InternalPage) : Bool :=
  let articleWords := pySplit (pyLower (article.h1 ++ " " ++ article.body_markdown))
  let page_keywords := wordSet (pyLower page.topic)
  page_keywords.any (fun keyword =>
    serp_analysis.topics.any (fun topic => (pySplit (pyLower topic)).contains keyword) ||
      articleWords.contains keyword)

instance {ε α : Type} [DecidableEq ε] [DecidableEq α] : DecidableEq (Except ε α) := fun a b =>
  match a, b with
  | Except.error x, Except.error y => decidable_of_iff (x = y) (by simp)
  | Except.ok x, Except.ok y => decidable_of_iff (x = y) (by simp)
  | Except.error _, Except.ok _ => isFalse (by simp)
  | Except.ok _, Except.error _ => isFalse (by simp)

/-! ## Concrete test fixtures -/

/-- A small analysis object for concrete runs. -/
def anFull : SERPAnalysis :=
  { primary_keyword := "seo", secondary_keywords := [], topics := [], faqs := [] }

/-- A small valid outline (3 level-2 sections, no level-1 section). -/
def outlineFull : Outline :=
  { title := "seo guide"
    sections := [⟨2, "Intro", "intro", "start"⟩,
                 ⟨2, "Middle", "middle", "core"⟩,
                 ⟨2, "End", "finish", "wrap"⟩] }

/-- An outline violating the content contract: one level-1 section. -/
def badOutline : Outline :=
  { title := "T"
    sections := [⟨1, "A", "a", "sa"⟩, ⟨2, "B", "b", "sb"⟩,
                 ⟨2, "C", "c", "sc"⟩, ⟨2, "D", "d", "sd"⟩] }

/-- Two ranked search results on authoritative domains. -/
def serpFull : List SERPResult :=
  [⟨1, "https://a.com/1", "alpha seo", "s1"⟩,
   ⟨2, "https://b.com/2", "beta seo", "s2"⟩]

def seoFull : SEOInfo :=
  { title_tag := "tt", meta_description := "md", primary_keyword := "seo",
    secondary_keywords := [], word_count_target := 30, estimated_word_count := none }

/-- A 36-word body (target 30, band [24, 36]) with one H1 line, three H2
lines, and the primary keyword in the H1, the opening words and an H2. -/
def bodyFull : String :=
  "# seo guide\n\n## seo tips\n\nalpha beta gamma delta epsilon zeta eta theta\n\n" ++
    "## more ideas\n\niota kappa lam mu nu xi omicron pi\n\n" ++
    "## final thoughts\n\nrho sigma tau upsilon phi chi psi omega"

/-- An article that passes every validator check once links are planned. -/
def artFull : Article :=
  { h1 := "seo guide", body_markdown := bodyFull, seo := seoFull,
    internal_links := [], external_references := [], structured_data := [] }

/-- A fully populated shared context: every stage output field is set. -/
def ctxFull : ArticleContext :=
  { job_id := "j1", input := ⟨"seo", 30, Language.en⟩,
    serp_results := serpFull, serp_analysis := some anFull,
    outline := some outlineFull, article := some artFull }

/-- A fresh context: no stage output present at all. -/
def ctxStarved : ArticleContext :=
  { job_id := "j2", input := ⟨"t", 1500, Language.en⟩,
    serp_results := [], serp_analysis := none, outline := none, article := none }

/-- Constant-response providers used for concrete runs. -/
def pW : Providers :=
  { organic_results := [⟨"https://ex.com/1", "r1", "sn1"⟩, ⟨"https://ex.com/2", "r2", "sn2"⟩]
    analysis_response := fun _ => anFull
    outline_response := fun _ => outlineFull
    text_response := fun _ => ""
    seo_meta_response := fun _ => ⟨"tt", "md"⟩ }

/-- Providers whose outline response violates the content contract. -/
def pBad : Providers :=
  { organic_results := [⟨"https://ex.com/1", "r1", "sn1"⟩]
    analysis_response := fun _ => anFull
    outline_response := fun _ => badOutline
    text_response := fun _ => ""
    seo_meta_response := fun _ => ⟨"tt", "md"⟩ }

/-- An article whose combined text contains "tips" only inside "tipsy". -/
def artTipsy : Article :=
  { h1 := "", body_markdown := "He was tipsy today",
    seo := { title_tag := "t", meta_description := "d", primary_keyword := "seo",
             secondary_keywords := [], word_count_target := 30,
             estimated_word_count := none },
    internal_links := [], external_references := [], structured_data := [] }

/-- An analysis with no topics (the SERP branch of the matcher is inert). -/
def anEmpty : SERPAnalysis :=
  { primary_keyword := "seo", secondary_keywords := [], topics := [], faqs := [] }

/-- Word-count target 6 and a 4-word body: `4 < 0.8 * 6` but
`int(6 * 0.8) = 4`, so the band in the code accepts it. -/
def artBand : Article :=
  { h1 := "k", body_markdown := "a b c d",
    seo := { title_tag := "t", meta_description := "d", primary_keyword := "k",
             secondary_keywords := [], word_count_target := 6,
             estimated_word_count := none },
    internal_links := [], external_references := [], structured_data := [] }

/-- A one-element search result list (forces the sub-2 reference branch). -/
def serpOne : List SERPResult :=
  [⟨1, "https://x.com/a", "alpha intro", "sx"⟩]

/-- A job already in a terminal state. -/
def jobDone : Job :=
  { id := "jd", topic := "t", target_word_count := 1500, language := Language.en,
    status := JobStatus.completed, serp_results_snapshot := none,
    serp_analysis_snapshot := none, outline_snapshot := none,
    article_snapshot := none, error_message := none, updated_at := 7 }

/-- A job in a terminal failed state. -/
def jobFailed : Job :=
  { id := "je", topic := "t", target_word_count := 1500, language := Language.en,
    status := JobStatus.failed, serp_results_snapshot := none,
    serp_analysis_snapshot := none, outline_snapshot := none,
    article_snapshot := none, error_message := some "boom", updated_at := 7 }

/-- A freshly created pending job with no snapshots. -/
def jobFresh : Job :=
  { id := "jf", topic := "t", target_word_count := 1500, language := Language.en,
    status := JobStatus.pending, serp_results_snapshot := none,
    serp_analysis_snapshot := none, outline_snapshot := none,
    article_snapshot := none, error_message := none, updated_at := 0 }

/-! ## Helper lemmas -/

theorem strContains_append_left (a b needle : String)
    (h : strContains a needle = true) : strContains (a ++ b) needle = true := by
  unfold strContains at h ⊢
  rw [List.any_eq_true] at h ⊢
  obtain ⟨t, ht, hp⟩ := h
  rw [List.mem_tails] at ht
  refine ⟨t ++ b.data, ?_, ?_⟩
  · rw [List.mem_tails, String.data_append]
    obtain ⟨u, hu⟩ := ht
    exact ⟨u, by rw [← List.append_assoc, hu]⟩
  · rw [ List.isPrefixOf_iff_prefix] at hp ⊢
    exact hp.trans (List.prefix_append t b.data)

theorem strContains_append_right (a b needle : String)
    (h : strContains b needle = true) : strContains (a ++ b) needle = true := by
  unfold strContains at h ⊢
  rw [List.any_eq_true] at h ⊢
  obtain ⟨t, ht, hp⟩ := h
  rw [List.mem_tails] at ht
  refine ⟨t, ?_, hp⟩
  rw [List.mem_tails, String.data_append]
  exact ht.trans (List.suffix_append a.data b.data)

/-- Embedding the fourth element of an eight-way concatenation. -/
theorem exists_middle_split {α : Type} (x1 x2 x3 b x5 x6 x7 x8 : List α) :
    ∃ pre post,
      x1 ++ x2 ++ x3 ++ b ++ x5 ++ x6 ++ x7 ++ x8 = pre ++ b ++ post := by
  exact ⟨x1 ++ x2 ++ x3, x5 ++ x6 ++ x7 ++ x8, by simp [List.append_assoc]⟩

/-! ## Claim theorems -/

/-- C6: the only mutation of the validator is setting the estimated word
count in the SEO metadata to the whitespace-token count of the body; every
other article field is unchanged.  (The error list is a deterministic function of
the input article by construction: `validate` is a pure function of it.) -/
theorem validate_frame (a : Article) :
    (SEOValidator.validate a).1.h1 = a.h1 ∧
    (SEOValidator.validate a).1.body_markdown = a.body_markdown ∧
    (SEOValidator.validate a).1.internal_links = a.internal_links ∧
    (SEOValidator.validate a).1.external_references = a.external_references ∧
    (SEOValidator.validate a).1.structured_data = a.structured_data ∧
    (SEOValidator.validate a).1.seo.title_tag = a.seo.title_tag ∧
    (SEOValidator.validate a).1.seo.meta_description = a.seo.meta_description ∧
    (SEOValidator.validate a).1.seo.primary_keyword = a.seo.primary_keyword ∧
    (SEOValidator.validate a).1.seo.secondary_keywords = a.seo.secondary_keywords ∧
    (SEOValidator.validate a).1.seo.word_count_target = a.seo.word_count_target ∧
    (SEOValidator.validate a).1.seo.estimated_word_count
      = some (countWords a.body_markdown) :=
  ⟨rfl, rfl, rfl, rfl, rfl, rfl, rfl, rfl, rfl, rfl, rfl⟩

/-- C2: invoking the runner on a job whose status is `completed` or `failed`
returns the job record unchanged (so nothing was written: every store write
bumps `updated_at`) and executes zero stages. -/
theorem process_job_terminal_noop (p : Providers) (job : Job)
    (h : job.status = JobStatus.completed ∨ job.status = JobStatus.failed) :
    process_job p job = (job, 0) := by
  rcases h with h | h <;> simp [process_job, h]

/-- Witness for C2 at both terminal statuses. -/
theorem process_job_terminal_noop_witness :
    process_job pW jobDone = (jobDone, 0) ∧ process_job pW jobFailed = (jobFailed, 0) :=
  ⟨process_job_terminal_noop pW jobDone (Or.inl rfl),
   process_job_terminal_noop pW jobFailed (Or.inr rfl)⟩

/-- C5 (amended): the accepted word counts are exactly the inclusive band
between `int(0.8 * t)` and `int(1.2 * t)` — the *floors* of the claimed real
endpoints, which for targets not divisible by 5 admits word counts strictly
below `0.8 × t`; the check reports which bound was missed, it sits verbatim
inside the error list of the validator, and the concrete t = 1500 cases of the
claim all hold. -/
theorem word_count_band_amended :
    (∀ t w, (SEOValidator.wordCountBandErrors t w = [] ↔
        SEOValidator.minWords t ≤ w ∧ w ≤ SEOValidator.maxWords t)
      ∧ (w < SEOValidator.minWords t →
          ∃ e, SEOValidator.wordCountBandErrors t w = [e] ∧
            strContains e "below minimum" = true)
      ∧ (SEOValidator.maxWords t < w →
          ∃ e, SEOValidator.wordCountBandErrors t w = [e] ∧
            strContains e "exceeds maximum" = true)) ∧
    (∀ a, ∃ pre post, (SEOValidator.validate a).2 =
      pre ++ SEOValidator.wordCountBandErrors a.seo.word_count_target
        (countWords a.body_markdown) ++ post) ∧
    SEOValidator.wordCountBandErrors 1500 1200 = [] ∧
    SEOValidator.wordCountBandErrors 1500 1800 = [] ∧
    (∃ e, SEOValidator.wordCountBandErrors 1500 1199 = [e] ∧
      strContains e "below minimum" = true) ∧
    (∃ e, SEOValidator.wordCountBandErrors 1500 1801 = [e] ∧
      strContains e "exceeds maximum" = true) := by
  refine ⟨fun t w => ⟨?_, ?_, ?_⟩, fun a => ?_, by decide, by decide, ?_, ?_⟩
  · unfold SEOValidator.wordCountBandErrors SEOValidator.minWords SEOValidator.maxWords
    split_ifs with h1 h2 <;> simp <;> omega
  · intro h
    unfold SEOValidator.minWords at h
    unfold SEOValidator.wordCountBandErrors SEOValidator.minWords
    rw [if_pos h]
    refine ⟨_, rfl, ?_⟩
    apply strContains_append_left
    apply strContains_append_left
    apply strContains_append_left
    apply strContains_append_left
    apply strContains_append_right
    decide
  · intro h
    unfold SEOValidator.maxWords at h
    unfold SEOValidator.wordCountBandErrors SEOValidator.minWords SEOValidator.maxWords
    rw [if_neg (by omega), if_pos h]
    refine ⟨_, rfl, ?_⟩
    apply strContains_append_left
    apply strContains_append_left
    apply strContains_append_left
    apply strContains_append_left
    apply strContains_append_right
    decide
  · unfold SEOValidator.validate
    dsimp only
    exact exists_middle_split _ _ _ _ _ _ _ _
  · exact ⟨_, rfl, by decide⟩
  · exact ⟨_, rfl, by decide⟩

/-- Witness for C5 (amended), at t = 1501 and t = 1500. -/
theorem word_count_band_amended_witness :
    SEOValidator.wordCountBandErrors 1501 1200 = [] ∧
    (∃ e, SEOValidator.wordCountBandErrors 1501 1199 = [e] ∧
      strContains e "below minimum" = true) ∧
    SEOValidator.wordCountBandErrors 1500 1200 = [] := by
  have h := word_count_band_amended
  refine ⟨((h.1 1501 1200).1).mpr (by decide), (h.1 1501 1199).2.1 (by decide), h.2.2.1⟩

/-- Counterexample for C5 as stated: for target 6 and a 4-word body,
`4 < 0.8 × 6` so the claimed inclusive real band `[0.8t, 1.2t]` rejects the
count, yet the validator (whose minimum is `int(6 * 0.8) = 4`) reports no
band error at all (the errors it does report are other checks). -/
theorem word_count_band_counterexample :
    countWords artBand.body_markdown = 4 ∧
    5 * countWords artBand.body_markdown < 4 * artBand.seo.word_count_target ∧
    ((SEOValidator.validate artBand).2.all (fun e =>
      !strContains e "below minimum" && !strContains e "exceeds maximum")) = true ∧
    (SEOValidator.validate artBand).2 ≠ [] := by
  refine ⟨by decide, by decide, by decide, by decide⟩

theorem computeReferences_length_le (serp : List SERPResult) (outline : Outline) :
    (LinkPlanner.computeReferences serp outline).length ≤ 4 := by
  simp only [LinkPlanner.computeReferences]
  split_ifs with h0 h1 h2 h3 <;>
    simp [List.length_append, List.length_map, List.length_take] <;> omega

/-- C8: the cap of `plan_external_references` applies exactly when at least
2 references were computed (and even then can only produce at most 4); a
sub-2 result is returned as computed, and the computed list itself never
exceeds 4 entries. -/
theorem plan_external_references_cap (serp : List SERPResult) (outline : Outline)
    (hne : serp ≠ []) :
    (2 ≤ (LinkPlanner.computeReferences serp outline).length →
      LinkPlanner.plan_external_references serp outline
        = (LinkPlanner.computeReferences serp outline).take 4) ∧
    ((LinkPlanner.computeReferences serp outline).length < 2 →
      LinkPlanner.plan_external_references serp outline
        = LinkPlanner.computeReferences serp outline) ∧
    (LinkPlanner.computeReferences serp outline).length ≤ 4 ∧
    (LinkPlanner.plan_external_references serp outline).length ≤ 4 := by
  have hfst : 2 ≤ (LinkPlanner.computeReferences serp outline).length →
      LinkPlanner.plan_external_references serp outline
        = (LinkPlanner.computeReferences serp outline).take 4 := by
    intro h2
    unfold LinkPlanner.plan_external_references
    rw [if_pos h2]
  have hsnd : (LinkPlanner.computeReferences serp outline).length < 2 →
      LinkPlanner.plan_external_references serp outline
        = LinkPlanner.computeReferences serp outline := by
    intro h2
    unfold LinkPlanner.plan_external_references
    rw [if_neg (by omega)]
  refine ⟨hfst, hsnd, computeReferences_length_le serp outline, ?_⟩
  by_cases hc : 2 ≤ (LinkPlanner.computeReferences serp outline).length
  · rw [hfst hc]
    simp [List.length_take]
  · rw [hsnd (by omega)]
    exact computeReferences_length_le serp outline

/-- Witness for C8: one search result computes one reference, which is
returned untruncated. -/
theorem plan_external_references_cap_witness :
    LinkPlanner.plan_external_references serpOne outlineFull
      = LinkPlanner.computeReferences serpOne outlineFull ∧
    (LinkPlanner.computeReferences serpOne outlineFull).length = 1 ∧
    (LinkPlanner.plan_external_references serpOne outlineFull).length ≤ 4 := by
  have h := plan_external_references_cap serpOne outlineFull (by decide)
  exact ⟨h.2.1 (by decide), by decide, h.2.2.2⟩

theorem rankFrom_get (l : List OrganicResult) : ∀ (k i : Nat)
    (h : i < (rankFrom k l).length), ((rankFrom k l).get ⟨i, h⟩).rank = k + i := by
  induction l with
  | nil => intro k i h; simp [rankFrom] at h
  | cons r rs ih =>
    intro k i h
    cases i with
    | zero => simp [rankFrom]
    | succ n =>
      have h2 : n < (rankFrom (k + 1) rs).length := by
        simp [rankFrom] at h; omega
      have step : ((rankFrom k (r :: rs)).get ⟨n + 1, h⟩).rank
          = ((rankFrom (k + 1) rs).get ⟨n, h2⟩).rank := by
        simp [rankFrom]
      rw [step, ih (k + 1) n h2]
      omega

theorem take_search_rank (org : List OrganicResult) (i : Nat)
    (hi : i < ((SerpClient.search org 15).take 10).length) :
    (((SerpClient.search org 15).take 10).get ⟨i, hi⟩).rank = i + 1 := by
  rw [List.get_take']
  have hlen : i < (SerpClient.search org 15).length :=
    hi.trans_le (by rw [List.length_take]; exact min_le_right _ _)
  exact (rankFrom_get (org.take 15) 1 i hlen).trans (Nat.add_comm 1 i)

/-- C9: after the search stage runs on a context with no prior results, at
most 10 results are kept, entry `i` carries rank `i + 1` (contiguous ranks
from 1), the kept list is the first 10 of the ranked client answer, and
the `num` parameter sent to the provider is 15 — more than the 10 kept. -/
theorem search_stage_invariants (p : Providers) (ctx : ArticleContext)
    (h : ctx.serp_results = []) :
    ((SERPAgent.run p ctx).1.serp_results).length ≤ 10 ∧
    (∀ i (hi : i < ((SERPAgent.run p ctx).1.serp_results).length),
      (((SERPAgent.run p ctx).1.serp_results).get ⟨i, hi⟩).rank = i + 1) ∧
    (SERPAgent.run p ctx).1.serp_results
      = (SerpClient.search p.organic_results 15).take 10 ∧
    serpRequestNum 15 = 15 ∧ 10 < serpRequestNum 15 := by
  have hres : (SERPAgent.run p ctx).1.serp_results
      = (SerpClient.search p.organic_results 15).take 10 := by
    simp [SERPAgent.run, h]
  refine ⟨?_, ?_, hres, rfl, by decide⟩
  · rw [hres]
    simp [List.length_take]
  · intro i hi
    revert hi
    rw [hres]
    exact take_search_rank p.organic_results i

/-- Witness for C9 with two organic results and an empty context. -/
theorem search_stage_invariants_witness :
    ((SERPAgent.run pW ctxStarved).1.serp_results).length ≤ 10 ∧
    (((SERPAgent.run pW ctxStarved).1.serp_results).get
      ⟨0, by decide⟩).rank = 0 + 1 ∧
    (SERPAgent.run pW ctxStarved).1.serp_results
      = (SerpClient.search pW.organic_results 15).take 10 ∧
    serpRequestNum 15 = 15 ∧ 10 < serpRequestNum 15 := by
  have h := search_stage_invariants pW ctxStarved rfl
  exact ⟨h.1, h.2.1 0 (by decide), h.2.2.1, h.2.2.2.1, h.2.2.2.2⟩

set_option maxRecDepth 10000 in
theorem plan_internal_links_spec (a : Article) (an : SERPAnalysis) :
    LinkPlanner.plan_internal_links a an
      = ((LinkPlanner.INTERNAL_PAGES.filter (LinkPlanner.pageMatches a an)) ++
          LinkPlanner.INTERNAL_PAGES.filter
            (fun pg => !LinkPlanner.pageMatches a an pg)).map LinkPlanner.mkSuggestion ∧
    (LinkPlanner.plan_internal_links a an).length = 3 ∧
    ((LinkPlanner.plan_internal_links a an).map (fun s => s.target_slug)).Nodup ∧
    LinkPlanner.plan_internal_links a an
      = LinkPlanner.backfillLoop 4
          ((LinkPlanner.INTERNAL_PAGES.filter (LinkPlanner.pageMatches a an)).map
            LinkPlanner.mkSuggestion) ∧
    SEOValidator.internalLinkCountErrors (LinkPlanner.plan_internal_links a an) = [] := by
  cases h1 : LinkPlanner.pageMatches a an
      ⟨"seo-keyword-research-tools", "SEO keyword research tools"⟩ <;>
  cases h2 : LinkPlanner.pageMatches a an
      ⟨"content-optimization-checklist", "content optimization checklist"⟩ <;>
  cases h3 : LinkPlanner.pageMatches a an
      ⟨"remote-team-collaboration", "remote team collaboration tips"⟩ <;>
  simp [LinkPlanner.plan_internal_links, LinkPlanner.INTERNAL_PAGES,
    LinkPlanner.backfillLoop, LinkPlanner.backfillPass, LinkPlanner.mkSuggestion,
    SEOValidator.internalLinkCountErrors,
    h1, h2, h3, List.filter]

/-- C7 (amended): `plan_internal_links` matches each catalog page by
case-insensitive *substring* containment of the constituent page-topic
words (a word occurring inside a longer word still matches), and then
backfills the unmatched pages, so the output is the matched pages in catalog
order followed by the unmatched pages in catalog order — not exactly the
matched set. -/
theorem internal_links_matching_amended (a : Article) (an : SERPAnalysis) :
    LinkPlanner.plan_internal_links a an
      = ((LinkPlanner.INTERNAL_PAGES.filter (LinkPlanner.pageMatches a an)) ++
          LinkPlanner.INTERNAL_PAGES.filter
            (fun pg => !LinkPlanner.pageMatches a an pg)).map LinkPlanner.mkSuggestion :=
  (plan_internal_links_spec a an).1

set_option maxRecDepth 10000 in
/-- Counterexample for C7 as stated: for an article whose combined text is
"He was tipsy today" (page-topic word "tips" occurs only inside "tipsy")
and an analysis with no topics, no page is whole-word matched, yet the
planner emits the remote-team-collaboration page *first* (it was substring
matched) — not the claimed exactly-the-whole-word-matches output. -/
theorem internal_links_matching_counterexample :
    LinkPlanner.INTERNAL_PAGES.filter (wholeWordMatches artTipsy anEmpty) = [] ∧
    (LinkPlanner.plan_internal_links artTipsy anEmpty).map (fun s => s.target_slug)
      = ["remote-team-collaboration", "seo-keyword-research-tools",
         "content-optimization-checklist"] ∧
    LinkPlanner.plan_internal_links artTipsy anEmpty
      ≠ (LinkPlanner.INTERNAL_PAGES.filter (wholeWordMatches artTipsy anEmpty)).map
          LinkPlanner.mkSuggestion := by
  refine ⟨by decide, by decide, by decide⟩

/-- C10: `plan_internal_links` always returns exactly 3 suggestions with
pairwise-distinct target slugs (matched first, then backfill), the
at-least-3-internal-links check of the validator can never fire on its output,
and the cap at 5 never truncates (the capped result equals the uncapped
backfill result). -/
theorem internal_links_always_three (a : Article) (an : SERPAnalysis) :
    (LinkPlanner.plan_internal_links a an).length = 3 ∧
    ((LinkPlanner.plan_internal_links a an).map (fun s => s.target_slug)).Nodup ∧
    SEOValidator.internalLinkCountErrors (LinkPlanner.plan_internal_links a an) = [] ∧
    LinkPlanner.plan_internal_links a an
      = LinkPlanner.backfillLoop 4
          ((LinkPlanner.INTERNAL_PAGES.filter (LinkPlanner.pageMatches a an)).map
            LinkPlanner.mkSuggestion) :=
  ⟨(plan_internal_links_spec a an).2.1, (plan_internal_links_spec a an).2.2.1,
   (plan_internal_links_spec a an).2.2.2.2, (plan_internal_links_spec a an).2.2.2.1⟩

/-- C1 (amended): each of the first four stages (search, analysis, outline,
draft) is a no-op — no provider calls, context returned unchanged — when its
own output field is already populated.  The validation stage has no output
field of its own and is not covered: it always re-plans links and
re-validates (see the counterexample). -/
theorem stages_noop_when_populated (p : Providers) (ctx : ArticleContext) :
    (ctx.serp_results ≠ [] → SERPAgent.run p ctx = (ctx, 0)) ∧
    (ctx.serp_analysis ≠ none → SERPAnalysisAgent.run p ctx = (ctx, 0)) ∧
    (ctx.outline ≠ none → OutlineAgent.run p ctx = (Except.ok ctx, 0)) ∧
    (ctx.article ≠ none → DraftAgent.run p ctx = (Except.ok ctx, 0)) := by
  refine ⟨?_, ?_, ?_, ?_⟩
  · intro h
    cases hc : ctx.serp_results with
    | nil => exact absurd hc h
    | cons x xs => simp [SERPAgent.run, hc]
  · intro h
    cases hc : ctx.serp_analysis with
    | none => exact absurd hc h
    | some v => simp [SERPAnalysisAgent.run, hc]
  · intro h
    cases hc : ctx.outline with
    | none => exact absurd hc h
    | some v => simp [OutlineAgent.run, hc]
  · intro h
    cases hc : ctx.article with
    | none => exact absurd hc h
    | some v => simp [DraftAgent.run, hc]

/-- Witness for C1 (amended) on a fully populated context. -/
theorem stages_noop_when_populated_witness :
    SERPAgent.run pW ctxFull = (ctxFull, 0) ∧
    SERPAnalysisAgent.run pW ctxFull = (ctxFull, 0) ∧
    OutlineAgent.run pW ctxFull = (Except.ok ctxFull, 0) ∧
    DraftAgent.run pW ctxFull = (Except.ok ctxFull, 0) := by
  have h := stages_noop_when_populated pW ctxFull
  exact ⟨h.1 (by decide), h.2.1 (by decide), h.2.2.1 (by decide), h.2.2.2 (by decide)⟩

set_option maxRecDepth 10000 in
/-- Counterexample for C1 as stated: on a fully populated context the
validation stage does not return the context unchanged — it re-plans the
links, mutating the article (here from 0 to 3 internal links). -/
theorem validation_stage_not_noop_counterexample :
    ctxFull.serp_results ≠ [] ∧ ctxFull.serp_analysis ≠ none ∧
    ctxFull.outline ≠ none ∧ ctxFull.article ≠ none ∧
    (ValidationAgent.run ctxFull).1 ≠ Except.ok ctxFull ∧
    (match (ValidationAgent.run ctxFull).1 with
      | Except.ok c => c.article.map (fun art => art.internal_links.length)
      | Except.error _ => none) = some 3 ∧
    artFull.internal_links.length = 0 := by
  refine ⟨by decide, by decide, by decide, by decide, by decide, by decide, by decide⟩

/-- C4 (amended): the analysis stage performs no precondition check on the
search results: whenever no analysis is present — even with an empty
search-result list — it builds the summarization prompt and calls the
generation provider once, storing the parsed response; it does not raise. -/
theorem analysis_stage_no_precondition (p : Providers) (ctx : ArticleContext)
    (h : ctx.serp_analysis = none) :
    SERPAnalysisAgent.run p ctx
      = ({ ctx with serp_analysis := some (p.analysis_response (analysisPrompt ctx)) }, 1) := by
  simp [SERPAnalysisAgent.run, h]

/-- Witness for C4 (amended) on a context with no search results. -/
theorem analysis_stage_no_precondition_witness :
    ctxStarved.serp_results = [] ∧
    SERPAnalysisAgent.run pW ctxStarved
      = ({ ctxStarved with serp_analysis := some anFull }, 1) := by
  refine ⟨rfl, ?_⟩
  rw [analysis_stage_no_precondition pW ctxStarved rfl]
  rfl

/-- Counterexample for C4 as stated: on a context with empty search results
and no analysis, the analysis stage does not fail — it proceeds to make one
generation-provider call and stores the returned analysis. -/
theorem analysis_stage_counterexample :
    ctxStarved.serp_results = [] ∧ ctxStarved.serp_analysis = none ∧
    (SERPAnalysisAgent.run pW ctxStarved).2 = 1 ∧
    (SERPAnalysisAgent.run pW ctxStarved).1.serp_analysis = some anFull :=
  ⟨rfl, rfl, rfl, rfl⟩

theorem serpRun_outline (p : Providers) (ctx : ArticleContext) :
    ((SERPAgent.run p ctx).1).outline = ctx.outline := by
  unfold SERPAgent.run
  split <;> rfl

theorem analysisRun_outline (p : Providers) (ctx : ArticleContext) :
    ((SERPAnalysisAgent.run p ctx).1).outline = ctx.outline := by
  unfold SERPAnalysisAgent.run
  split <;> rfl

theorem analysisRun_isSome (p : Providers) (ctx : ArticleContext) :
    ((SERPAnalysisAgent.run p ctx).1).serp_analysis.isSome = true := by
  unfold SERPAnalysisAgent.run
  cases h : ctx.serp_analysis with
  | some v => simp [h]
  | none => simp [h]

theorem ctxAfterAnalysis_outline (p : Providers) (job : Job) :
    (ctxAfterAnalysis p job).outline = job.outline_snapshot := by
  unfold ctxAfterAnalysis
  rw [analysisRun_outline, serpRun_outline]
  rfl

/-- A non-terminal invocation runs the stage pipeline from the outline
stage on the stage-1/2 context and job. -/
theorem process_job_run (p : Providers) (job : Job)
    (h1 : job.status ≠ JobStatus.completed) (h2 : job.status ≠ JobStatus.failed) :
    process_job p job
      = finishFromOutline p (jobAfterAnalysis p job) (ctxAfterAnalysis p job) := by
  unfold process_job jobAfterAnalysis ctxAfterAnalysis
  rw [if_neg h1, if_neg h2]
  rfl

theorem finishFromValidation_outline_snapshot (job : Job) (ctx : ArticleContext) :
    ((finishFromValidation job ctx).1).outline_snapshot = job.outline_snapshot := by
  unfold finishFromValidation
  split
  · simp [updateJob, keepOr]
  · split <;> simp [updateJob, keepOr]

theorem finishFromDraft_outline_snapshot (p : Providers) (job : Job) (ctx : ArticleContext) :
    ((finishFromDraft p job ctx).1).outline_snapshot = job.outline_snapshot := by
  unfold finishFromDraft
  split
  · simp [updateJob, keepOr]
  · split <;> rw [finishFromValidation_outline_snapshot] <;> simp [updateJob, keepOr]

/-- C3: whatever outline the generation provider returns during the outline
stage of a live run with no persisted outline: if any section claims heading
level 1 the run fails and persists an error message containing "H1"; if no
section claims level 1 but fewer than 3 sections have level 2 the run fails
and persists an error message containing "H2"; otherwise the outline is
stored (persisted in the outline snapshot of the job). -/
theorem outline_contract (p : Providers) (job : Job)
    (hst : job.status = JobStatus.pending ∨ job.status = JobStatus.running)
    (hout : job.outline_snapshot = none)
    (an : SERPAnalysis)
    (han : (ctxAfterAnalysis p job).serp_analysis = some an) :
    (((p.outline_response (OutlineAgent.outlinePrompt (ctxAfterAnalysis p job) an)).sections.filter
        (fun s => s.heading_level = 1)).length > 0 →
      (process_job p job).1.status = JobStatus.failed ∧
      ∃ e, (process_job p job).1.error_message = some e ∧ strContains e "H1" = true) ∧
    (((p.outline_response (OutlineAgent.outlinePrompt (ctxAfterAnalysis p job) an)).sections.filter
        (fun s => s.heading_level = 1)).length = 0 →
     ((p.outline_response (OutlineAgent.outlinePrompt (ctxAfterAnalysis p job) an)).sections.filter
        (fun s => s.heading_level = 2)).length < 3 →
      (process_job p job).1.status = JobStatus.failed ∧
      ∃ e, (process_job p job).1.error_message = some e ∧ strContains e "H2" = true) ∧
    (((p.outline_response (OutlineAgent.outlinePrompt (ctxAfterAnalysis p job) an)).sections.filter
        (fun s => s.heading_level = 1)).length = 0 →
     ¬ ((p.outline_response (OutlineAgent.outlinePrompt (ctxAfterAnalysis p job) an)).sections.filter
        (fun s => s.heading_level = 2)).length < 3 →
      (process_job p job).1.outline_snapshot
        = some (p.outline_response (OutlineAgent.outlinePrompt (ctxAfterAnalysis p job) an))) := by
  have h1 : job.status ≠ JobStatus.completed := by rcases hst with h | h <;> simp [h]
  have h2 : job.status ≠ JobStatus.failed := by rcases hst with h | h <;> simp [h]
  rw [process_job_run p job h1 h2]
  have hO : (ctxAfterAnalysis p job).outline = none :=
    (ctxAfterAnalysis_outline p job).trans hout
  refine ⟨?_, ?_, ?_⟩
  · intro hh1
    have hrun : (OutlineAgent.run p (ctxAfterAnalysis p job)).1
        = Except.error ("Outline sections should not have heading_level=1 (title is the H1), found " ++
            toString ((p.outline_response (OutlineAgent.outlinePrompt (ctxAfterAnalysis p job) an)).sections.filter
              (fun s => s.heading_level = 1)).length ++ " H1 sections") := by
      unfold OutlineAgent.run
      rw [hO, han]
      dsimp only
      rw [if_pos hh1]
    unfold finishFromOutline
    rw [hrun]
    refine ⟨rfl, _, rfl, ?_⟩
    apply strContains_append_right
    decide
  · intro hh1 hh2
    have hrun : (OutlineAgent.run p (ctxAfterAnalysis p job)).1
        = Except.error ("Outline must have at least 3 H2 sections, found " ++
            toString ((p.outline_response (OutlineAgent.outlinePrompt (ctxAfterAnalysis p job) an)).sections.filter
              (fun s => s.heading_level = 2)).length) := by
      unfold OutlineAgent.run
      rw [hO, han]
      dsimp only
      rw [if_neg (by omega), if_pos hh2]
    unfold finishFromOutline
    rw [hrun]
    refine ⟨rfl, _, rfl, ?_⟩
    apply strContains_append_left
    decide
  · intro hh1 hh2
    have hrun : (OutlineAgent.run p (ctxAfterAnalysis p job)).1
        = Except.ok { ctxAfterAnalysis p job with
            outline := some (p.outline_response (OutlineAgent.outlinePrompt (ctxAfterAnalysis p job) an)) } := by
      unfold OutlineAgent.run
      rw [hO, han]
      dsimp only
      rw [if_neg (by omega), if_neg hh2, han]
    unfold finishFromOutline
    rw [hrun]
    dsimp only
    rw [finishFromDraft_outline_snapshot]
    rfl

/-- Witness for C3: a provider returning an outline with a level-1 section
fails the fresh job with an "H1" error. -/
theorem outline_contract_witness :
    (process_job pBad jobFresh).1.status = JobStatus.failed ∧
    ∃ e, (process_job pBad jobFresh).1.error_message = some e ∧
      strContains e "H1" = true :=
  (outline_contract pBad jobFresh (Or.inl rfl) rfl anFull rfl).1 (by decide)

end AiSeo
